import Mathlib

/-!
Shallow embedding of the RAG backend under `templates/backend-fastapi/app`
(services `rag_service.py`, `chunking_service.py`, `qdrant_service.py` and the
routes `chat.py`, `rag.py`), together with proofs about the claims of the
specification.  External library calls (LangChain splitters, the Ollama LLM,
the Qdrant client) are modelled as abstract function parameters; the control
flow of the repository's own code is translated line by line.
-/

/-- Document metadata.  The repository manipulates the two integer fields
`chunk_index` and `total_chunks` explicitly (`chunking_service.py` lines
162-164); every other key is carried opaquely in `other` as string key/value
pairs. -/
structure Meta where
  chunk_index : Option Nat := none
  total_chunks : Option Nat := none
  other : List (String × String) := []
deriving DecidableEq, Repr

/-- LangChain `Document`: `page_content` plus free-form metadata. -/
structure Document where
  page_content : String
  metadata : Meta := {}
deriving DecidableEq, Repr

/-- One element of the `sources` payload built in `rag_service.py` lines
142-149: `{"content": ..., "metadata": ..., "score": metadata.get("score")}`. -/
structure SourceItem where
  content : String
  metadata : Meta
  score : Option String
deriving DecidableEq, Repr

def mkSourceItem (d : Document) : SourceItem :=
  ⟨d.page_content, d.metadata, d.metadata.other.lookup "score"⟩

/-- The tagged event union yielded by `RAGService.query`
(`rag_service.py` lines 150, 175, 178, 180). -/
inductive QueryEvent where
  | sources (data : List SourceItem)
  | token (data : String)
  | done
deriving DecidableEq, Repr

/-- One entry of the `chat_history` argument: a dict with `role`/`content`. -/
structure ChatMsg where
  role : String
  content : String
deriving DecidableEq, Repr

/-- LangChain chat messages built from the history
(`rag_service.py` lines 156-162). -/
inductive LCMessage where
  | human (content : String)
  | ai (content : String)
deriving DecidableEq, Repr

/-- `rag_service.py` lines 156-162: `HumanMessage` for role `user`,
`AIMessage` for role `assistant`, anything else skipped.  A `None`
`chat_history` is represented by the empty list. -/
def historyToMessages (chat_history : List ChatMsg) : List LCMessage :=
  chat_history.filterMap fun m =>
    if m.role = "user" then some (.human m.content)
    else if m.role = "assistant" then some (.ai m.content)
    else none

/-- `RAGService.query` (`rag_service.py` lines 114-180) as the finite list of
events it yields on a run that completes.  `retrieve` stands for
`retriever.invoke` (line 137), `astream` for `self.ollama.chat.astream`
applied to the prompt built from the retrieved documents, the history
messages and the question (lines 165-175), and `ainvoke` for the
non-streaming `self.ollama.chat.ainvoke` (lines 177-178).  In streaming mode
a `token` event is yielded only for chunks with truthy (non-empty) content
(line 174). -/
def RAGService.query
    (retrieve : String → List Document)
    (astream : List Document → List LCMessage → String → List String)
    (ainvoke : List Document → List LCMessage → String → String)
    (question : String) (stream : Bool) (include_sources : Bool)
    (chat_history : List ChatMsg) : List QueryEvent :=
  let docs := retrieve question
  let sourceEvents :=
    if include_sources then [QueryEvent.sources (docs.map mkSourceItem)] else []
  let messages := historyToMessages chat_history
  let tokenEvents :=
    if stream then
      ((astream docs messages question).filter fun c => c != "").map QueryEvent.token
    else
      [QueryEvent.token (ainvoke docs messages question)]
  sourceEvents ++ tokenEvents ++ [QueryEvent.done]

/-- Modelled from the spec: `create_history_aware_retriever` (an external
LangChain helper used by `RAGService.create_conversational_chain`,
`rag_service.py` lines 104-106, whose source is not part of this repository).
Per the spec (§4.2), when `chat_history` is empty the question is passed to
the retriever unchanged by an explicit branch; otherwise the generation
gateway rewrites it. -/
def create_history_aware_question
    (rewrite : List ChatMsg → String → String)
    (chat_history : List ChatMsg) (question : String) : String :=
  if chat_history.isEmpty then question else rewrite chat_history question

/-- Modelled from the spec: the configuration module `app/core/config.py`
(`get_settings`) is not under `src/`; only the two chunking defaults
`CHUNK_SIZE` and `CHUNK_OVERLAP` are consumed by `chunking_service.py`. -/
structure Settings where
  CHUNK_SIZE : Nat
  CHUNK_OVERLAP : Nat
deriving DecidableEq, Repr

/-- Modelled from the spec: default settings values, taken from the spec's
general-purpose recommendation (§4.1: size 1000, overlap 200). -/
def defaultSettings : Settings := ⟨1000, 200⟩

/-- Python `x or default` on an optional int: `None` and `0` are falsy. -/
def orDefault (x : Option Nat) (d : Nat) : Nat :=
  match x with
  | some n => if n = 0 then d else n
  | none => d

/-- The keyword arguments consulted by `ChunkingService._create_splitter`
(`chunking_service.py` lines 66-116, each read with `kwargs.get(..., default)`). -/
structure SplitterKwargs where
  separators : Option (List String) := none
  is_separator_regex : Option Bool := none
  separator : Option String := none
  encoding_name : Option String := none
  headers_to_split_on : Option (List (String × String)) := none
  strip_headers : Option Bool := none
  tokens_per_chunk : Option Nat := none
deriving DecidableEq, Repr

/-- The splitter objects built by `ChunkingService._create_splitter`
(`chunking_service.py` lines 53-120), one constructor per LangChain splitter
class, recording exactly the constructor arguments passed. -/
inductive SplitterObj where
  | recursiveSplitter (chunk_size chunk_overlap : Nat)
      (separators : List String) (is_separator_regex : Bool)
  | characterSplitter (chunk_size chunk_overlap : Nat) (separator : String)
  | tokenSplitter (chunk_size chunk_overlap : Nat) (encoding_name : String)
  | markdownSplitter (headers_to_split_on : List (String × String))
      (strip_headers : Bool)
  | htmlSplitter (headers_to_split_on : List (String × String))
  | semanticSplitter (chunk_overlap : Nat) (tokens_per_chunk : Nat)
deriving DecidableEq, Repr

/-- `ChunkingService._create_splitter` (`chunking_service.py` lines 53-120):
dispatch on the strategy string; an unknown strategy raises `ValueError`
(modelled as `none`). -/
def ChunkingService.createSplitter (strategy : String)
    (chunk_size chunk_overlap : Nat) (kwargs : SplitterKwargs) :
    Option SplitterObj :=
  if strategy = "recursive" then
    some (.recursiveSplitter chunk_size chunk_overlap
      (kwargs.separators.getD ["\n\n", "\n", ". ", ", ", " ", ""])
      (kwargs.is_separator_regex.getD false))
  else if strategy = "character" then
    some (.characterSplitter chunk_size chunk_overlap
      (kwargs.separator.getD "\n\n"))
  else if strategy = "token" then
    some (.tokenSplitter chunk_size chunk_overlap
      (kwargs.encoding_name.getD "cl100k_base"))
  else if strategy = "markdown" then
    some (.markdownSplitter
      (kwargs.headers_to_split_on.getD
        [("#", "header_1"), ("##", "header_2"), ("###", "header_3")])
      (kwargs.strip_headers.getD false))
  else if strategy = "html" then
    some (.htmlSplitter
      (kwargs.headers_to_split_on.getD
        [("h1", "header_1"), ("h2", "header_2"), ("h3", "header_3")]))
  else if strategy = "semantic" then
    some (.semanticSplitter (min chunk_overlap 50)
      (kwargs.tokens_per_chunk.getD 256))
  else
    none

/-- The `self._splitters` cache: a dict from the string key
`f"{strategy}_{chunk_size}_{chunk_overlap}"` to splitter objects. -/
abbrev SplitterCache := List (String × SplitterObj)

/-- `ChunkingService.get_splitter` (`chunking_service.py` lines 33-51): apply
the falsy-or defaults, build the cache key, return the cached object on a
hit (the call's `kwargs` are then never consulted), otherwise construct,
store and return a new one.  Returns the splitter together with the updated
cache; `none` models the `ValueError` of an unknown strategy. -/
def ChunkingService.get_splitter (settings : Settings) (cache : SplitterCache)
    (strategy : String) (chunk_size chunk_overlap : Option Nat)
    (kwargs : SplitterKwargs) : Option (SplitterObj × SplitterCache) :=
  let cs := orDefault chunk_size settings.CHUNK_SIZE
  let co := orDefault chunk_overlap settings.CHUNK_OVERLAP
  let key := strategy ++ "_" ++ toString cs ++ "_" ++ toString co
  match cache.lookup key with
  | some s => some (s, cache)
  | none =>
    match ChunkingService.createSplitter strategy cs co kwargs with
    | some s => some (s, (key, s) :: cache)
    | none => none

/-- `chunking_service.py` lines 161-164: stamp `chunk_index`/`total_chunks`
over the final chunk sequence with `enumerate`. -/
def stampChunks (docs : List Document) : List Document :=
  docs.enum.map fun p =>
    { p.2 with metadata :=
        { p.2.metadata with
            chunk_index := some p.1, total_chunks := some docs.length } }

/-- `chunking_service.py` lines 147-157: the secondary recursive pass of
`split_text`.  It is guarded by Python `if chunk_size:` on the raw optional
parameter, so it runs only for an explicit non-zero `chunk_size`; each chunk
strictly longer than `chunk_size` is replaced by the recursive splitter's
output on it, shorter chunks pass through unchanged, in order. -/
def secondPass (recSplitDocs : List Document → List Document)
    (chunk_size : Option Nat) (docs : List Document) : List Document :=
  match chunk_size with
  | some size =>
    if size = 0 then docs
    else
      docs.flatMap fun d =>
        if size < d.page_content.length then recSplitDocs [d] else [d]
  | none => docs

/-- `ChunkingService.split_text` (`chunking_service.py` lines 122-166).
The three LangChain split operations are abstract parameters:
`structSplit` is the markdown/html splitter's `split_text` (line 140, which
returns `Document`s), `splitDocs` is the chosen splitter's `split_documents`
(line 159), and `recSplitDocs` is the secondary recursive splitter's
`split_documents` (line 153).  On an empty structural split the code indexes
`chunks[0]` (line 142) and raises `IndexError`, modelled as `none`.  Note the
secondary pass is guarded by `if chunk_size:` on the raw optional parameter
(line 148), so it is skipped when `chunk_size` is `None` or `0`. -/
def ChunkingService.split_text
    (structSplit : String → List Document)
    (splitDocs : List Document → List Document)
    (recSplitDocs : List Document → List Document)
    (strategy : String) (text : String)
    (chunk_size chunk_overlap : Option Nat) (metadata : Meta) :
    Option (List Document) :=
  -- `chunk_overlap` (like `**kwargs`) only parametrizes the construction of
  -- the splitters via `get_splitter`; here those splitters are the abstract
  -- parameters above, so it is carried but not consulted.
  if strategy = "markdown" ∨ strategy = "html" then
    match structSplit text with
    | [] => none
    | c :: cs => some (stampChunks (secondPass recSplitDocs chunk_size (c :: cs)))
  else
    some (stampChunks (splitDocs [⟨text, metadata⟩]))

/-- `ChunkingService.split_documents` (`chunking_service.py` lines 168-194):
markdown/html inputs are routed through `split_text` document by document
and concatenated; every other strategy delegates to the splitter's
`split_documents` directly — without any index stamping. -/
def ChunkingService.split_documents
    (structSplit : String → List Document)
    (splitDocs : List Document → List Document)
    (recSplitDocs : List Document → List Document)
    (strategy : String) (documents : List Document)
    (chunk_size chunk_overlap : Option Nat) : Option (List Document) :=
  if strategy = "markdown" ∨ strategy = "html" then
    (documents.mapM fun doc =>
      ChunkingService.split_text structSplit splitDocs recSplitDocs strategy
        doc.page_content chunk_size chunk_overlap doc.metadata).map List.flatten
  else
    some (splitDocs documents)

/-- The dict returned by `ChunkingService.estimate_chunks`
(`chunking_service.py` lines 215-221).  `estimated_chunks` is an `Int`
because Python computes `(text_length - chunk_overlap) // effective_chunk`
with int (floor) division before clamping with `max(1, ...)`. -/
structure EstimateResult where
  text_length : Nat
  chunk_size : Nat
  chunk_overlap : Nat
  estimated_chunks : Int
  strategy : String
deriving DecidableEq, Repr

/-- `ChunkingService.estimate_chunks` (`chunking_service.py` lines 196-221):
falsy-or defaulting of size/overlap, then
`max(1, (text_length - chunk_overlap) // (chunk_size - chunk_overlap))`
when the effective chunk is positive, else `1`.  Python `//` is floor
division, i.e. `Int.fdiv`. -/
def ChunkingService.estimate_chunks (settings : Settings) (text : String)
    (strategy : String) (chunk_size chunk_overlap : Option Nat) :
    EstimateResult :=
  let cs := orDefault chunk_size settings.CHUNK_SIZE
  let co := orDefault chunk_overlap settings.CHUNK_OVERLAP
  let text_length := text.length
  let effective_chunk : Int := (cs : Int) - (co : Int)
  let estimated_chunks : Int :=
    if effective_chunk ≤ 0 then 1
    else max 1 (Int.fdiv ((text_length : Int) - (co : Int)) effective_chunk)
  ⟨text_length, cs, co, estimated_chunks, strategy⟩

/-- One entry of the `recommendations` table in
`ChunkingService.get_optimal_strategy` (`chunking_service.py` lines 234-273). -/
structure Recommendation where
  strategy : String
  chunk_size : Nat
  chunk_overlap : Nat
  separators : Option (List String) := none
  separator : Option String := none
  reason : String
deriving DecidableEq, Repr

/-- The `recommendations` lookup with its `"general"` fallback
(`chunking_service.py` lines 234-275). -/
def ChunkingService.recommendationFor (content_type : String) :
    Recommendation :=
  if content_type = "markdown" then
    { strategy := "markdown", chunk_size := 1000, chunk_overlap := 200,
      reason := "Preserves markdown structure and headers" }
  else if content_type = "html" then
    { strategy := "html", chunk_size := 1000, chunk_overlap := 200,
      reason := "Preserves HTML structure and semantic tags" }
  else if content_type = "code" then
    { strategy := "recursive", chunk_size := 1500, chunk_overlap := 200,
      separators := some ["\n\n", "\ndef ", "\nclass ", "\n", " "],
      reason := "Respects code block boundaries" }
  else if content_type = "conversation" then
    { strategy := "character", chunk_size := 500, chunk_overlap := 50,
      separator := some "\n",
      reason := "Keeps conversation turns together" }
  else if content_type = "structured" then
    { strategy := "semantic", chunk_size := 512, chunk_overlap := 50,
      reason := "Semantic boundaries for structured data" }
  else
    { strategy := "recursive", chunk_size := 1000, chunk_overlap := 200,
      reason := "Best general-purpose strategy" }

/-- `ChunkingService.get_optimal_strategy` (`chunking_service.py` lines
223-282): table lookup, then for `avg_doc_length < 500` clamp
`chunk_size` to `min(chunk_size, avg_doc_length)` and `chunk_overlap` to
`min(chunk_overlap, chunk_size // 5)` against the already-clamped size. -/
def ChunkingService.get_optimal_strategy (content_type : String)
    (avg_doc_length : Nat) : Recommendation :=
  let r := ChunkingService.recommendationFor content_type
  if avg_doc_length < 500 then
    let cs := min r.chunk_size avg_doc_length
    { r with chunk_size := cs, chunk_overlap := min r.chunk_overlap (cs / 5) }
  else
    r

/-- The argument tuple `RAGService.mmr_search` (`rag_service.py` lines
231-244) forwards to `QdrantService.mmr_search`.  `lambda_mult` is the
Python float `0.5` by default, represented exactly as a rational. -/
structure MmrCallArgs where
  query : String
  k : Nat
  fetch_k : Nat
  lambda_mult : Rat
deriving DecidableEq, Repr

/-- `RAGService.mmr_search` viewed as the call it issues: Python signature
defaults `k: int = 5, fetch_k: int = 20, lambda_mult: float = 0.5`
(`rag_service.py` lines 231-244); an argument the caller leaves unspecified
is the corresponding `none`. -/
def RAGService.mmr_search_call (query : String) (k : Option Nat)
    (fetch_k : Option Nat) (lambda_mult : Option Rat) : MmrCallArgs :=
  ⟨query, k.getD 5, fetch_k.getD 20, lambda_mult.getD (1 / 2)⟩

/-- Result of binding a Python call: either the body's value or the
`TypeError` raised when the keyword arguments do not fit the signature. -/
inductive PyCallResult (α : Type) where
  | ok (a : α)
  | typeError
deriving DecidableEq, Repr

/-- Python keyword-argument binding: every keyword must name a parameter of
the signature, and every parameter without a default must be supplied. -/
def bindKwargs (params : List String) (optional_params : List String)
    (kwargs : List String) : Bool :=
  kwargs.all (fun kw => params.contains kw)
    && params.all (fun p => optional_params.contains p || kwargs.contains p)

/-- Parameters of `RAGService.query` (`rag_service.py` lines 114-121),
excluding `self`. -/
def RAGService.query_param_names : List String :=
  ["question", "stream", "include_sources", "k", "search_type", "chat_history"]

/-- The parameters of `RAGService.query` that carry defaults: all but
`question`. -/
def RAGService.query_optional_param_names : List String :=
  ["stream", "include_sources", "k", "search_type", "chat_history"]

/-- The keyword names used by the `POST /chat/` handler when it calls
`rag.query` (`app/api/routes/chat.py` lines 22-26): `question`,
`include_sources` and `filters`. -/
def chatRouteQueryKwargs : List String :=
  ["question", "include_sources", "filters"]

/-- `ChatRequest` (`app/schemas/chat.py` lines 8-13). -/
structure ChatRequest where
  message : String
  conversation_id : Option String := none
  include_sources : Bool := true
  filters : Option (List (String × String)) := none
deriving DecidableEq, Repr

/-- The `POST /chat/` handler (`app/api/routes/chat.py` lines 14-36): it
invokes `rag.query` with the keyword set `chatRouteQueryKwargs`; if binding
fails, iterating the SSE generator raises `TypeError` before any event is
produced.  The `ok` branch (never reached, see `chat_route_always_raises`)
would yield the streamed events. -/
def chatRoute
    (retrieve : String → List Document)
    (astream : List Document → List LCMessage → String → List String)
    (ainvoke : List Document → List LCMessage → String → String)
    (request : ChatRequest) : PyCallResult (List QueryEvent) :=
  if bindKwargs RAGService.query_param_names RAGService.query_optional_param_names
      chatRouteQueryKwargs then
    .ok (RAGService.query retrieve astream ainvoke request.message true
      request.include_sources [])
  else
    .typeError

/-- Parameters of `RAGService.index_documents` (`rag_service.py` lines
254-258), excluding `self`. -/
def RAGService.index_documents_param_names : List String :=
  ["documents", "collection"]

/-- Parameters of `RAGService.search` (`rag_service.py` lines 209-215),
excluding `self`. -/
def RAGService.search_param_names : List String :=
  ["query", "k", "search_type", "filters"]

/-- `IndexRequest` (`app/api/routes/rag.py` lines 13-16). -/
structure IndexRequest where
  texts : List String
  metadatas : Option (List Meta) := none
  collection : Option String := none
deriving DecidableEq, Repr

/-- `SearchRequest` (`app/api/routes/rag.py` lines 19-23).  `score_threshold`
is a Python float; it is never read (the call below fails to bind), so a
rational stands in for it. -/
structure SearchRequest where
  query : String
  k : Nat := 5
  score_threshold : Option Rat := none
  filters : Option (List (String × String)) := none
deriving DecidableEq, Repr

/-- The `POST /rag/index` handler (`app/api/routes/rag.py` lines 33-44): it
calls `rag.index_documents(texts=..., metadatas=..., collection=...)`.  The
`ok` branch is unreachable (the body would return the indexed count). -/
def ragIndexRoute (request : IndexRequest) : PyCallResult Nat :=
  if bindKwargs RAGService.index_documents_param_names ["collection"]
      ["texts", "metadatas", "collection"] then
    .ok request.texts.length
  else
    .typeError

/-- The `POST /rag/search` handler (`app/api/routes/rag.py` lines 47-59): it
calls `rag.search(query=..., k=..., score_threshold=..., filters=...)`.  The
`ok` branch is unreachable (the body would return the search hits). -/
def ragSearchRoute (search : String → Nat → List Document)
    (request : SearchRequest) : PyCallResult (List Document) :=
  if bindKwargs RAGService.search_param_names ["k", "search_type", "filters"]
      ["query", "k", "score_threshold", "filters"] then
    .ok (search request.query request.k)
  else
    .typeError

/-- C1: every run of `RAGService.query` yields zero-or-one `sources` event
(present exactly when `include_sources` is true), then zero-or-more `token`
events, then exactly one terminal `done` event, with no event after
`done`. -/
theorem query_event_protocol
    (retrieve : String → List Document)
    (astream : List Document → List LCMessage → String → List String)
    (ainvoke : List Document → List LCMessage → String → String)
    (question : String) (stream : Bool) (include_sources : Bool)
    (chat_history : List ChatMsg) :
    ∃ (srcData : List SourceItem) (toks : List String),
      RAGService.query retrieve astream ainvoke question stream include_sources chat_history
        = (if include_sources then [QueryEvent.sources srcData] else [])
          ++ toks.map QueryEvent.token ++ [QueryEvent.done]
      ∧ QueryEvent.done ∉
          (if include_sources then [QueryEvent.sources srcData] else [])
          ++ toks.map QueryEvent.token := by
  refine ⟨(retrieve question).map mkSourceItem,
    if stream then
      (astream (retrieve question) (historyToMessages chat_history) question).filter
        fun c => c != ""
    else
      [ainvoke (retrieve question) (historyToMessages chat_history) question], ?_, ?_⟩
  · unfold RAGService.query
    cases stream <;> cases include_sources <;> simp
  · cases stream <;> cases include_sources <;> simp [List.mem_map]

/-- C7: in `RAGService.query` the question used for retrieval is the caller's
question unchanged whenever the chat history is empty (the `sources` event is
computed from `retrieve question` itself), and the history-aware
rewrite used by the conversational chain is the identity on an empty
history (`rewrite([], q) = q`), with no gateway rewrite call made. -/
theorem query_rewrite_identity_on_empty_history
    (retrieve : String → List Document)
    (astream : List Document → List LCMessage → String → List String)
    (ainvoke : List Document → List LCMessage → String → String)
    (question : String) (stream : Bool)
    (rewrite : List ChatMsg → String → String) :
    (RAGService.query retrieve astream ainvoke question stream true []).head?
        = some (QueryEvent.sources ((retrieve question).map mkSourceItem))
    ∧ create_history_aware_question rewrite [] question = question := by
  constructor
  · unfold RAGService.query
    cases stream <;> simp
  · simp [create_history_aware_question]

theorem enumFrom_map_fst_apply {α β : Type} (g : Nat → β) :
    ∀ (n : Nat) (l : List α),
      ((List.enumFrom n l).map fun p => g p.1) = (List.range' n l.length).map g := by
  intro n l
  induction l generalizing n with
  | nil => rfl
  | cons a t ih => simp only [List.enumFrom, List.map_cons, List.length_cons,
      List.range', ih]

theorem enumFrom_map_snd_apply {α β : Type} (g : α → β) :
    ∀ (n : Nat) (l : List α),
      ((List.enumFrom n l).map fun p => g p.2) = l.map g := by
  intro n l
  induction l generalizing n with
  | nil => rfl
  | cons a t ih => simp only [List.enumFrom, List.map_cons, ih]

theorem enumFrom_map_const {α β : Type} (c : β) :
    ∀ (n : Nat) (l : List α),
      ((List.enumFrom n l).map fun _ => c) = List.replicate l.length c := by
  intro n l
  induction l generalizing n with
  | nil => rfl
  | cons a t ih => simp only [List.enumFrom, List.map_cons, List.length_cons,
      List.replicate, ih]

theorem stampChunks_length (l : List Document) :
    (stampChunks l).length = l.length := by
  simp [stampChunks, List.enum_length]

theorem stampChunks_chunk_index (l : List Document) :
    ((stampChunks l).map fun d => d.metadata.chunk_index)
      = (List.range l.length).map some := by
  rw [List.range_eq_range']
  calc ((stampChunks l).map fun d => d.metadata.chunk_index)
      = (List.enumFrom 0 l).map fun p => some p.1 := by
        unfold stampChunks; rw [List.map_map]; rfl
    _ = (List.range' 0 l.length).map some := enumFrom_map_fst_apply some 0 l

theorem stampChunks_total (l : List Document) :
    ((stampChunks l).map fun d => d.metadata.total_chunks)
      = List.replicate l.length (some l.length) := by
  calc ((stampChunks l).map fun d => d.metadata.total_chunks)
      = (List.enumFrom 0 l).map fun _ => some l.length := by
        unfold stampChunks; rw [List.map_map]; rfl
    _ = List.replicate l.length (some l.length) := enumFrom_map_const _ 0 l

theorem stampChunks_content (l : List Document) :
    ((stampChunks l).map fun d => d.page_content)
      = l.map fun d => d.page_content := by
  calc ((stampChunks l).map fun d => d.page_content)
      = (List.enumFrom 0 l).map fun p => p.2.page_content := by
        unfold stampChunks; rw [List.map_map]; rfl
    _ = l.map fun d => d.page_content :=
        enumFrom_map_snd_apply (fun d => d.page_content) 0 l

theorem all_map_general {α β : Type} (l : List α) (f : α → β) (p : β → Bool) :
    (l.map f).all p = l.all fun a => p (f a) := by
  induction l with
  | nil => rfl
  | cons a t ih => simp [List.all_cons, ih]

theorem stampChunks_all_content (p : String → Bool) (l : List Document) :
    ((stampChunks l).all fun d => p d.page_content)
      = (l.all fun d => p d.page_content) := by
  have h := congrArg (fun l' : List String => l'.all p) (stampChunks_content l)
  simp only [all_map_general] at h
  exact h

theorem split_text_eq_stamp
    (structSplit : String → List Document)
    (splitDocs recSplitDocs : List Document → List Document)
    (strategy text : String) (chunk_size chunk_overlap : Option Nat)
    (metadata : Meta) (out : List Document)
    (hout : ChunkingService.split_text structSplit splitDocs recSplitDocs
      strategy text chunk_size chunk_overlap metadata = some out) :
    ∃ l, out = stampChunks l := by
  unfold ChunkingService.split_text at hout
  split at hout
  · cases hc : structSplit text with
    | nil => rw [hc] at hout; exact absurd hout (by simp)
    | cons c cs =>
      rw [hc] at hout
      exact ⟨_, (Option.some.inj hout).symm⟩
  · exact ⟨_, (Option.some.inj hout).symm⟩

/-- C2 (amended): for every input, every chunking strategy and every
splitter behaviour, the chunks returned by `split_text` carry `chunk_index`
values exactly `0..total_chunks-1` in order, and every chunk carries
`total_chunks` equal to the number of chunks returned, stamped over the
final sequence after the secondary-pass logic.  (`split_documents` does not
have this property; see the counterexample.) -/
theorem split_text_stamps_contiguous_indices
    (structSplit : String → List Document)
    (splitDocs recSplitDocs : List Document → List Document)
    (strategy text : String) (chunk_size chunk_overlap : Option Nat)
    (metadata : Meta) (out : List Document)
    (hout : ChunkingService.split_text structSplit splitDocs recSplitDocs
      strategy text chunk_size chunk_overlap metadata = some out) :
    (out.map fun d => d.metadata.chunk_index) = (List.range out.length).map some
    ∧ (out.map fun d => d.metadata.total_chunks)
        = List.replicate out.length (some out.length) := by
  obtain ⟨l, rfl⟩ := split_text_eq_stamp structSplit splitDocs recSplitDocs
    strategy text chunk_size chunk_overlap metadata out hout
  rw [stampChunks_length]
  exact ⟨stampChunks_chunk_index l, stampChunks_total l⟩

/-- Witness for `split_text_stamps_contiguous_indices`: the `recursive`
strategy on `"hello"` with a pass-through splitter yields one chunk stamped
`chunk_index = 0`, `total_chunks = 1`. -/
theorem split_text_stamps_contiguous_indices_witness :
    ChunkingService.split_text (fun _ => []) (fun ds => ds) (fun _ => [])
        "recursive" "hello" none none {}
      = some [⟨"hello", ⟨some 0, some 1, []⟩⟩]
    ∧ ([⟨"hello", ⟨some 0, some 1, []⟩⟩] : List Document).map
        (fun d => d.metadata.chunk_index) = (List.range 1).map some
    ∧ ([⟨"hello", ⟨some 0, some 1, []⟩⟩] : List Document).map
        (fun d => d.metadata.total_chunks) = List.replicate 1 (some 1) :=
  ⟨by decide,
   (split_text_stamps_contiguous_indices (fun _ => []) (fun ds => ds)
      (fun _ => []) "recursive" "hello" none none {} _ (by decide)).1,
   (split_text_stamps_contiguous_indices (fun _ => []) (fun ds => ds)
      (fun _ => []) "recursive" "hello" none none {} _ (by decide)).2⟩

/-- Counterexample to C2 as stated: `split_documents` with the `recursive`
strategy (modelling the LangChain splitter returning a short document
unchanged) returns chunks carrying no `chunk_index`/`total_chunks` at all,
so their `chunk_index` values are not `0..total_chunks-1`. -/
theorem split_documents_does_not_stamp :
    (ChunkingService.split_documents (fun _ => []) (fun ds => ds) (fun _ => [])
        "recursive" [⟨"hello", {}⟩] none none).map
        (fun l => l.map fun d => d.metadata.chunk_index)
      = some [none]
    ∧ some [(none : Option Nat)] ≠ some [some 0] := by
  constructor
  · decide
  · decide

theorem secondPass_all_le (recSplitDocs : List Document → List Document)
    (size : Nat) (docs : List Document)
    (hsize : size ≠ 0)
    (hrec : ∀ ds, ((recSplitDocs ds).all fun d => d.page_content.length ≤ size)
      = true) :
    ((secondPass recSplitDocs (some size) docs).all
      fun d => d.page_content.length ≤ size) = true := by
  simp only [secondPass]
  rw [if_neg hsize, List.all_eq_true]
  intro x hx
  rw [List.mem_flatMap] at hx
  obtain ⟨a, _, hxa⟩ := hx
  by_cases h : size < a.page_content.length
  · rw [if_pos h] at hxa
    exact (List.all_eq_true.mp (hrec [a])) x hxa
  · rw [if_neg h] at hxa
    have hx_eq : x = a := by simpa using hxa
    subst hx_eq
    simp only [decide_eq_true_eq]
    omega

/-- C3 (amended): for a markdown or html `split_text`, when the caller passes
an explicit non-zero `chunk_size`, every structural chunk whose content
length exceeds `chunk_size` is re-split by the recursive splitter as a
second pass, so — provided the recursive splitter only emits chunks within
`chunk_size` — no returned chunk exceeds `chunk_size`.  (The pass is *not*
unconditional: it is skipped when `chunk_size` is left unspecified; see the
counterexample.) -/
theorem split_text_second_pass_bounds_chunks
    (structSplit : String → List Document)
    (splitDocs recSplitDocs : List Document → List Document)
    (strategy text : String) (size : Nat) (chunk_overlap : Option Nat)
    (metadata : Meta) (out : List Document)
    (hstrat : strategy = "markdown" ∨ strategy = "html")
    (hsize : size ≠ 0)
    (hrec : ∀ ds, ((recSplitDocs ds).all fun d => d.page_content.length ≤ size)
      = true)
    (hout : ChunkingService.split_text structSplit splitDocs recSplitDocs
      strategy text (some size) chunk_overlap metadata = some out) :
    (out.all fun d => d.page_content.length ≤ size) = true := by
  unfold ChunkingService.split_text at hout
  rw [if_pos hstrat] at hout
  cases hc : structSplit text with
  | nil => rw [hc] at hout; simp at hout
  | cons c cs =>
    rw [hc] at hout
    have h2 : stampChunks (secondPass recSplitDocs (some size) (c :: cs)) = out :=
      Option.some.inj hout
    rw [← h2]
    exact (stampChunks_all_content (fun s => s.length ≤ size) _).trans
      (secondPass_all_le recSplitDocs size (c :: cs) hsize hrec)

/-- Witness for `split_text_second_pass_bounds_chunks`: a structural chunk of
length 6 with `chunk_size = 3` is re-split by a recursive splitter emitting
3-character chunks, and the returned chunks all fit within 3. -/
theorem split_text_second_pass_bounds_chunks_witness :
    (3 : Nat) ≠ 0
    ∧ ChunkingService.split_text (fun _ => [⟨"abcdef", {}⟩]) (fun ds => ds)
        (fun _ => [⟨"abc", {}⟩]) "markdown" "x" (some 3) none {}
        = some [⟨"abc", ⟨some 0, some 1, []⟩⟩]
    ∧ (([⟨"abc", ⟨some 0, some 1, []⟩⟩] : List Document).all
        fun d => d.page_content.length ≤ 3) = true :=
  ⟨by decide, by decide,
   split_text_second_pass_bounds_chunks (fun _ => [⟨"abcdef", {}⟩])
     (fun ds => ds) (fun _ => [⟨"abc", {}⟩]) "markdown" "x" 3 none {}
     [⟨"abc", ⟨some 0, some 1, []⟩⟩] (Or.inl rfl) (by decide)
     (fun _ =>
       (by decide :
         (([⟨"abc", ⟨none, none, []⟩⟩] : List Document).all
           fun d => d.page_content.length ≤ 3) = true))
     (by decide)⟩

/-- A 1001-character text used to exhibit a structural chunk longer than the
default chunk size. -/
def bigContent : String := String.mk (List.replicate 1001 'a')

/-- Counterexample to C3 as stated: with `chunk_size` left unspecified the
two-pass policy does *not* apply — a structural chunk of length 1001
(exceeding the default chunk size of 1000) is returned unmodified even
though the recursive splitter (here one that would discard everything) was
available.  The `if chunk_size:` guard in `split_text` tests the raw
optional parameter, so no default is ever consulted for the second pass. -/
theorem split_text_skips_second_pass_when_size_unspecified :
    (ChunkingService.split_text (fun _ => [⟨bigContent, {}⟩]) (fun ds => ds)
        (fun _ => []) "markdown" "t" none none {}).map
        (fun l => l.map fun d => d.page_content.length)
      = some [1001]
    ∧ defaultSettings.CHUNK_SIZE < 1001 := by
  have hlen : bigContent.length = 1001 := by
    rw [show bigContent.length = (List.replicate 1001 'a').length from rfl]
    rw [List.length_replicate]
  constructor
  · have h1 : ChunkingService.split_text (fun _ => [⟨bigContent, {}⟩])
        (fun ds => ds) (fun _ => []) "markdown" "t" none none {}
        = some [⟨bigContent, ⟨some 0, some 1, []⟩⟩] := rfl
    rw [h1]
    simp [hlen]
  · decide

/-- C4 (amended): for explicit non-zero `chunk_size` and `chunk_overlap`
(Python falsy-or defaulting replaces an explicit `0` with the configured
default), `estimate_chunks` returns
`max(1, (len(text) - overlap) // (chunk_size - overlap))` — *floor*
division, not ceiling — whenever `chunk_size > overlap`, without invoking
any splitter; and whenever `overlap >= chunk_size` it returns 1 for any
text length. -/
theorem estimate_chunks_closed_form
    (settings : Settings) (text : String) (strategy : String) (cs co : Nat)
    (hcs : cs ≠ 0) (hco : co ≠ 0) :
    (co < cs →
      (ChunkingService.estimate_chunks settings text strategy
        (some cs) (some co)).estimated_chunks
        = max 1 (Int.fdiv ((text.length : Int) - (co : Int))
            ((cs : Int) - (co : Int))))
    ∧ (cs ≤ co →
      (ChunkingService.estimate_chunks settings text strategy
        (some cs) (some co)).estimated_chunks = 1) := by
  simp only [ChunkingService.estimate_chunks, orDefault]
  rw [if_neg hcs, if_neg hco]
  constructor
  · intro h
    have hpos : ¬ ((cs : Int) - (co : Int) ≤ 0) := by omega
    rw [if_neg hpos]
  · intro h
    have hnp : (cs : Int) - (co : Int) ≤ 0 := by omega
    rw [if_pos hnp]

/-- Witness for `estimate_chunks_closed_form` at `text = "hello"`,
`chunk_size = 3`, `chunk_overlap = 1`. -/
theorem estimate_chunks_closed_form_witness :
    (3 : Nat) ≠ 0 ∧ (1 : Nat) ≠ 0
    ∧ ((1 < 3 →
        (ChunkingService.estimate_chunks defaultSettings "hello" "recursive"
          (some 3) (some 1)).estimated_chunks
          = max 1 (Int.fdiv ((("hello" : String).length : Int) - ((1 : Nat) : Int))
              (((3 : Nat) : Int) - ((1 : Nat) : Int))))
       ∧ (3 ≤ 1 →
        (ChunkingService.estimate_chunks defaultSettings "hello" "recursive"
          (some 3) (some 1)).estimated_chunks = 1)) :=
  ⟨by decide, by decide,
   estimate_chunks_closed_form defaultSettings "hello" "recursive" 3 1
     (by decide) (by decide)⟩

/-- Counterexample to C4 as stated: for a 12-character text with
`chunk_size = 8`, `chunk_overlap = 1`, the code returns
`max(1, 11 // 7) = 1`, while the claimed ceiling formula gives
`max(1, ceil(11 / 7)) = 2`. -/
theorem estimate_chunks_not_ceiling :
    (ChunkingService.estimate_chunks defaultSettings "abcdefghijkl" "recursive"
      (some 8) (some 1)).estimated_chunks = 1
    ∧ max 1 (Int.fdiv (((12 : Int) - 1) + ((8 : Int) - 1) - 1) ((8 : Int) - 1)) = 2
    ∧ (1 : Int) ≠ 2 :=
  ⟨by decide, by decide, by decide⟩

/-- C5 (amended): when the caller of `RAGService.mmr_search` leaves `fetch_k`
unspecified, the candidate pool size forwarded to the vector store is the
constant default 20 — independent of `k`, not `max(k, 20)`; for `k > 20`
the pool is smaller than `k`. -/
theorem mmr_search_default_fetch_k
    (query : String) (k : Nat) (lambda_mult : Option Rat) :
    (RAGService.mmr_search_call query (some k) none lambda_mult).fetch_k = 20 :=
  rfl

/-- Counterexample to C5 as stated: with `k = 50` and `fetch_k` unspecified
the pool size used is 20, which is not `max(50, 20)` and is smaller
than `k`. -/
theorem mmr_search_default_fetch_k_not_max :
    (RAGService.mmr_search_call "q" (some 50) none none).fetch_k = 20
    ∧ (20 : Nat) ≠ max 50 20
    ∧ (RAGService.mmr_search_call "q" (some 50) none none).fetch_k
        < (RAGService.mmr_search_call "q" (some 50) none none).k :=
  ⟨rfl, by decide, by decide⟩

theorem recommendationFor_chunk_size_ge (content_type : String) :
    500 ≤ (ChunkingService.recommendationFor content_type).chunk_size := by
  unfold ChunkingService.recommendationFor
  split_ifs <;> decide

/-- C6 (amended): for every `content_type` and every `avg_doc_length < 500`,
`get_optimal_strategy` returns `chunk_size = avg_doc_length` (every table
entry's size is at least 500, so the `min` clamps to `avg_doc_length`) and
`chunk_overlap = min(table overlap, chunk_size // 5)` — *not* always
`chunk_size / 5`; `recommend("markdown", 2000)` returns strategy
`"markdown"`, size 1000, overlap 200, and `recommend("general", 200)`
returns `chunk_size ≤ 200`. -/
theorem get_optimal_strategy_small_docs
    (content_type : String) (avg_doc_length : Nat)
    (h : avg_doc_length < 500) :
    (ChunkingService.get_optimal_strategy content_type avg_doc_length).chunk_size
        = avg_doc_length
    ∧ (ChunkingService.get_optimal_strategy content_type avg_doc_length).chunk_overlap
        = min (ChunkingService.recommendationFor content_type).chunk_overlap
            (avg_doc_length / 5)
    ∧ (ChunkingService.get_optimal_strategy "markdown" 2000).strategy = "markdown"
    ∧ (ChunkingService.get_optimal_strategy "markdown" 2000).chunk_size = 1000
    ∧ (ChunkingService.get_optimal_strategy "markdown" 2000).chunk_overlap = 200
    ∧ (ChunkingService.get_optimal_strategy "general" 200).chunk_size ≤ 200 := by
  have hsize : avg_doc_length
      ≤ (ChunkingService.recommendationFor content_type).chunk_size :=
    le_of_lt (lt_of_lt_of_le h (recommendationFor_chunk_size_ge content_type))
  have hmin : min (ChunkingService.recommendationFor content_type).chunk_size
      avg_doc_length = avg_doc_length := Nat.min_eq_right hsize
  refine ⟨?_, ?_, by decide, by decide, by decide, by decide⟩
  · simp only [ChunkingService.get_optimal_strategy]
    rw [if_pos h]
    simpa using hmin
  · simp only [ChunkingService.get_optimal_strategy]
    rw [if_pos h]
    simp [hmin]

/-- Witness for `get_optimal_strategy_small_docs` at
`("conversation", 400)`. -/
theorem get_optimal_strategy_small_docs_witness :
    (400 : Nat) < 500
    ∧ ((ChunkingService.get_optimal_strategy "conversation" 400).chunk_size = 400
       ∧ (ChunkingService.get_optimal_strategy "conversation" 400).chunk_overlap
           = min (ChunkingService.recommendationFor "conversation").chunk_overlap
               (400 / 5)
       ∧ (ChunkingService.get_optimal_strategy "markdown" 2000).strategy = "markdown"
       ∧ (ChunkingService.get_optimal_strategy "markdown" 2000).chunk_size = 1000
       ∧ (ChunkingService.get_optimal_strategy "markdown" 2000).chunk_overlap = 200
       ∧ (ChunkingService.get_optimal_strategy "general" 200).chunk_size ≤ 200) :=
  ⟨by decide, get_optimal_strategy_small_docs "conversation" 400 (by decide)⟩

/-- Counterexample to C6 as stated: `recommend("conversation", 400)` yields
`chunk_size = 400` but `chunk_overlap = min(50, 400 // 5) = 50`, not
`chunk_size / 5 = 80`. -/
theorem get_optimal_strategy_overlap_not_fifth :
    (ChunkingService.get_optimal_strategy "conversation" 400).chunk_size = 400
    ∧ (ChunkingService.get_optimal_strategy "conversation" 400).chunk_overlap = 50
    ∧ (400 : Nat) / 5 = 80
    ∧ (50 : Nat) ≠ 80 :=
  ⟨by decide, by decide, by decide, by decide⟩

/-- C8: a second `get_splitter` call with the same
`(strategy, chunk_size, chunk_overlap)` triple returns the identical cached
splitter object with the cache unchanged — the second call's kwargs are
never consulted — and a call only ever leaves the cache as-is or extends it
by the new entry (entries are never invalidated). -/
theorem get_splitter_cache_hit
    (settings : Settings) (cache : SplitterCache) (strategy : String)
    (chunk_size chunk_overlap : Option Nat) (kw1 kw2 : SplitterKwargs)
    (s1 : SplitterObj) (c1 : SplitterCache)
    (h : ChunkingService.get_splitter settings cache strategy chunk_size
      chunk_overlap kw1 = some (s1, c1)) :
    ChunkingService.get_splitter settings c1 strategy chunk_size
      chunk_overlap kw2 = some (s1, c1)
    ∧ (c1 = cache
       ∨ c1 = (strategy ++ "_" ++ toString (orDefault chunk_size settings.CHUNK_SIZE)
              ++ "_" ++ toString (orDefault chunk_overlap settings.CHUNK_OVERLAP),
              s1) :: cache) := by
  simp only [ChunkingService.get_splitter] at h ⊢
  cases hlook : List.lookup
      (strategy ++ "_" ++ toString (orDefault chunk_size settings.CHUNK_SIZE)
        ++ "_" ++ toString (orDefault chunk_overlap settings.CHUNK_OVERLAP))
      cache with
  | some s =>
    rw [hlook] at h
    have hinj := Option.some.inj h
    have hs : s = s1 := congrArg Prod.fst hinj
    have hc : cache = c1 := congrArg Prod.snd hinj
    subst hs
    subst hc
    rw [hlook]
    exact ⟨rfl, Or.inl rfl⟩
  | none =>
    rw [hlook] at h
    cases hcr : ChunkingService.createSplitter strategy
        (orDefault chunk_size settings.CHUNK_SIZE)
        (orDefault chunk_overlap settings.CHUNK_OVERLAP) kw1 with
    | none => rw [hcr] at h; exact absurd h (by simp)
    | some s =>
      rw [hcr] at h
      have hinj := Option.some.inj h
      have hs : s = s1 := congrArg Prod.fst hinj
      have hc : _ = c1 := congrArg Prod.snd hinj
      subst hs
      rw [← hc]
      rw [show List.lookup
          (strategy ++ "_" ++ toString (orDefault chunk_size settings.CHUNK_SIZE)
            ++ "_" ++ toString (orDefault chunk_overlap settings.CHUNK_OVERLAP))
          ((strategy ++ "_" ++ toString (orDefault chunk_size settings.CHUNK_SIZE)
            ++ "_" ++ toString (orDefault chunk_overlap settings.CHUNK_OVERLAP),
            s) :: cache) = some s from by simp [List.lookup]]
      exact ⟨rfl, Or.inr rfl⟩

/-- The splitter constructed by the first `get_splitter` call of the C8
witness: the `recursive` strategy with the default separators. -/
def recursiveDefaultSplitter : SplitterObj :=
  .recursiveSplitter 1000 200 ["\n\n", "\n", ". ", ", ", " ", ""] false

/-- Witness for `get_splitter_cache_hit`: a first call with empty kwargs
constructs and caches the splitter; a second call with a different
`separator` kwarg returns the very same object and cache. -/
theorem get_splitter_cache_hit_witness :
    ChunkingService.get_splitter defaultSettings [] "recursive" none none {}
      = some (recursiveDefaultSplitter,
          [("recursive_1000_200", recursiveDefaultSplitter)])
    ∧ (ChunkingService.get_splitter defaultSettings
        [("recursive_1000_200", recursiveDefaultSplitter)] "recursive" none none
        ⟨none, none, some "X", none, none, none, none⟩
        = some (recursiveDefaultSplitter,
            [("recursive_1000_200", recursiveDefaultSplitter)])
       ∧ ([("recursive_1000_200", recursiveDefaultSplitter)] = []
          ∨ [("recursive_1000_200", recursiveDefaultSplitter)]
            = ("recursive" ++ "_" ++ toString (orDefault none defaultSettings.CHUNK_SIZE)
                ++ "_" ++ toString (orDefault none defaultSettings.CHUNK_OVERLAP),
                recursiveDefaultSplitter) :: [])) :=
  ⟨by decide,
   get_splitter_cache_hit defaultSettings [] "recursive" none none {}
     ⟨none, none, some "X", none, none, none, none⟩ recursiveDefaultSplitter
     [("recursive_1000_200", recursiveDefaultSplitter)] (by decide)⟩

/-- C9: the `POST /chat/` handler calls `RAGService.query` with the keyword
argument `filters`, which is not a parameter of `query`'s signature, so
every request on this route raises `TypeError` and never produces a token
stream. -/
theorem chat_route_always_raises
    (retrieve : String → List Document)
    (astream : List Document → List LCMessage → String → List String)
    (ainvoke : List Document → List LCMessage → String → String)
    (request : ChatRequest) :
    chatRoute retrieve astream ainvoke request = PyCallResult.typeError := rfl

/-- C10: the `POST /rag/index` handler passes `texts`/`metadatas` to
`RAGService.index_documents` (which accepts only `documents`/`collection`),
and the `POST /rag/search` handler passes `score_threshold` to
`RAGService.search` (which does not accept it), so every request to either
route raises `TypeError`. -/
theorem rag_routes_always_raise
    (search : String → Nat → List Document)
    (indexRequest : IndexRequest) (searchRequest : SearchRequest) :
    ragIndexRoute indexRequest = PyCallResult.typeError
    ∧ ragSearchRoute search searchRequest = PyCallResult.typeError :=
  ⟨rfl, rfl⟩
